import Mathlib

/-!
Verification of the News-Sentiment pipeline (src/api.py, src/cron.py,
src/utils/gemini_service.py, src/utils/news_scraper.py,
src/utils/text_to_speech.py) against its natural-language specification.

The Python code is shallowly embedded: pure fragments become Lean
functions; external library capabilities (the Gemini LLM, `json.loads`,
googletrans, gTTS, `requests`/BeautifulSoup) become oracle parameters of
type `... → Except ...`, where `Except.error` models a raised exception;
Python dicts become association lists over `String` keys; the on-disk
pickle store becomes an association list from file path to record.
-/

/-- A Python value as it occurs in this program's dicts: strings, ints,
lists, dicts and `None`.  (Floats do not occur in any code path the
claims touch; the integer 0 stored by `analyze_company` is an int.) -/
inductive PyVal where
  | str (s : String)
  | int (n : Int)
  | list (xs : List PyVal)
  | dict (fs : List (String × PyVal))
  | pynone

/-- A Python dict with string keys, as an association list in insertion
order (keys unique by construction in every dict this program builds). -/
abbrev PyDict := List (String × PyVal)

/-- Association-list lookup by string key (shared by Python dicts and
the path-keyed file store). -/
def aGet {α : Type} (d : List (String × α)) (k : String) : Option α :=
  (d.find? (fun p => p.1 == k)).map (fun p => p.2)

/-- Association-list update-or-append by string key: update in place if
the key exists, else append (insertion order preserved, matching
CPython dict semantics and file overwrite-or-create). -/
def aSet {α : Type} (d : List (String × α)) (k : String) (v : α) : List (String × α) :=
  if (d.find? (fun p => p.1 == k)).isSome then
    d.map (fun p => if p.1 == k then (k, v) else p)
  else
    d ++ [(k, v)]

/-- `d[k]` lookup returning `none` when the key is missing (Python would
raise `KeyError`; every use in this embedding is at a `d.get` site or at
a key that is present by construction). -/
def dGet (d : PyDict) (k : String) : Option PyVal :=
  aGet d k

/-- Python `d.get(k, default)`. -/
def dGetD (d : PyDict) (k : String) (v : PyVal) : PyVal :=
  (dGet d k).getD v

/-- Python `d[k] = v`. -/
def dSet (d : PyDict) (k : String) (v : PyVal) : PyDict :=
  aSet d k v

/-- Python truthiness for the values this program tests with `if x:`. -/
def pyTruthy : PyVal → Bool
  | PyVal.str s => !(s == "")
  | PyVal.int n => !(n == 0)
  | PyVal.list xs => !xs.isEmpty
  | PyVal.dict fs => !fs.isEmpty
  | PyVal.pynone => false

/-- Python `s.strip()` on a string: drop leading and trailing
whitespace. -/
def pyStrTrim (s : String) : String :=
  String.mk (((s.toList.dropWhile Char.isWhitespace).reverse.dropWhile
    Char.isWhitespace).reverse)

/-- Python `x.strip()`: defined on strings only; on any other value the
attribute access raises (modelled as `Except.error`). -/
def pyStrip : PyVal → Except Unit PyVal
  | PyVal.str s => Except.ok (PyVal.str (pyStrTrim s))
  | _ => Except.error ()

/-- Python `str(x)` as used inside f-string prompt interpolation.  The
rendering of non-string values is abstracted to a constant tag: the
prompt text is only ever consumed by the opaque LLM oracle, so its exact
spelling is behaviourally irrelevant; what matters is that `str` is
total (it never raises). -/
def pyStr : PyVal → String
  | PyVal.str s => s
  | PyVal.int n => toString n
  | PyVal.pynone => "None"
  | PyVal.list _ => "[list]"
  | PyVal.dict _ => "[dict]"

/-- `response_text.find(c)`: index of the first occurrence, as an
option (Python returns -1 for absence). -/
def strFind (s : String) (c : Char) : Option Nat :=
  s.toList.findIdx? (fun x => x == c)

/-- `response_text.rfind(c)`: index of the last occurrence. -/
def strRFind (s : String) (c : Char) : Option Nat :=
  match s.toList.reverse.findIdx? (fun x => x == c) with
  | some j => some (s.toList.length - 1 - j)
  | none => none

/-- The brace-extraction step shared by `_analyze_single_article` and
`_generate_comparative_analysis` (gemini_service.py:121-124 and
216-219): `json_start = text.find('{')`, `json_end = text.rfind('}')+1`,
and the slice `text[json_start:json_end]` when
`json_start >= 0 and json_end > json_start`; otherwise no payload. -/
def jsonExtract (s : String) : Option String :=
  match strFind s '{', strRFind s '}' with
  | some i, some j =>
      if i ≤ j then
        some (String.mk ((s.toList.drop i).take (j + 1 - i)))
      else none
  | _, _ => none


/-! ## GeminiService (src/utils/gemini_service.py)

The LLM capability `self.model.generate_content` is an oracle
`llm : String → Except String String` (prompt to response text, or a
raised exception carrying `str(e)`); `json.loads` is an oracle
`jsonLoads : String → Except Unit PyVal` (`Except.error` models a
raised `JSONDecodeError`). -/

/-- A raw article as produced by the scraper: always the three keys
`url`, `title`, `content` (news_scraper.py:107-119). -/
structure Article where
  url : String
  title : String
  content : String

/-- The result dict of `_analyze_single_article`: every branch returns
exactly the keys `Title`, `URL`, `Summary`, `Sentiment`, `Topics`
(gemini_service.py:136-142 and 148-154); `Title`/`URL` are always the
strings from the input article, the other three are whatever the parsed
LLM payload supplied. -/
structure ArticleAnalysisR where
  title : String
  url : String
  summary : PyVal
  sentiment : PyVal
  topics : PyVal

/-- Conversion of an analysis record back to the Python dict shape. -/
def ArticleAnalysisR.toPy (a : ArticleAnalysisR) : PyVal :=
  PyVal.dict [("Title", PyVal.str a.title), ("URL", PyVal.str a.url),
    ("Summary", a.summary), ("Sentiment", a.sentiment), ("Topics", a.topics)]

/-- The per-article prompt (gemini_service.py:97-114).  The JSON
brace-skeleton in the template is abbreviated to a field list: the
prompt only feeds the opaque LLM oracle. -/
def singleArticlePrompt (a : Article) : String :=
  "Analyze the following news article:\n\nTitle: " ++ a.title ++
  "\nContent: " ++ a.content ++
  "\n\nPlease provide:\n1. A concise summary of the article (2-3 sentences)\n" ++
  "2. The sentiment of the article (Positive, Negative, or Neutral)\n" ++
  "3. A list of main topics covered in the article\n\n" ++
  "Format your response as a JSON with fields Summary, Sentiment and Topics."

/-- The `except` branch of `_analyze_single_article`
(gemini_service.py:146-154). -/
def errorArticleAnalysis (a : Article) : ArticleAnalysisR :=
  { title := a.title, url := a.url,
    summary := PyVal.str "Error analyzing article content.",
    sentiment := PyVal.str "Neutral",
    topics := PyVal.list [PyVal.str "Error"] }

/-- The branch of `_analyze_single_article` taken when the response
holds no brace-delimited payload (gemini_service.py:127-133 flowing
into 136-142): the fallback `analysis` dict supplies every field of the
result. -/
def unparseableArticleAnalysis (a : Article) : ArticleAnalysisR :=
  { title := a.title, url := a.url,
    summary := PyVal.str "Failed to generate summary.",
    sentiment := PyVal.str "Neutral",
    topics := PyVal.list [PyVal.str "Unknown"] }

/-- `_analyze_single_article` (gemini_service.py:86-154): LLM call,
brace extraction, `json.loads`, then field reads with defaults.  A
raised exception anywhere in the `try` body (LLM failure, malformed
payload, `.get` on a non-dict payload) lands in the `except` branch. -/
def analyzeSingleArticle (llm : String → Except String String)
    (jsonLoads : String → Except Unit PyVal) (a : Article) : ArticleAnalysisR :=
  match llm (singleArticlePrompt a) with
  | Except.error _ => errorArticleAnalysis a
  | Except.ok t =>
    match jsonExtract t with
    | none => unparseableArticleAnalysis a
    | some js =>
      match jsonLoads js with
      | Except.error _ => errorArticleAnalysis a
      | Except.ok (PyVal.dict analysis) =>
          { title := a.title, url := a.url,
            summary := dGetD analysis "Summary" (PyVal.str "No summary available"),
            sentiment := dGetD analysis "Sentiment" (PyVal.str "Neutral"),
            topics := dGetD analysis "Topics" (PyVal.list [PyVal.str "Unknown"]) }
      | Except.ok _ => errorArticleAnalysis a

/-- Python `', '.join(x)`: joins an iterable of strings; iterating a
string yields its characters, iterating a dict yields its keys; any
non-string element (or a non-iterable) raises `TypeError`. -/
def pyJoinComma : PyVal → Except Unit String
  | PyVal.str s =>
      Except.ok (String.intercalate ", " (s.toList.map (fun c => String.mk [c])))
  | PyVal.list xs =>
      match xs.mapM (fun v => match v with | PyVal.str s => some s | _ => none) with
      | some ss => Except.ok (String.intercalate ", " ss)
      | none => Except.error ()
  | PyVal.dict fs => Except.ok (String.intercalate ", " (fs.map (fun p => p.1)))
  | _ => Except.error ()

/-- One line of the comparative prompt (gemini_service.py:177-178); the
topic join can raise, which the enclosing `try` catches. -/
def fmtArticleSummary (i : Nat) (a : ArticleAnalysisR) : Except Unit String := do
  let topics ← pyJoinComma a.topics
  Except.ok ("Article " ++ toString (i + 1) ++ ": " ++ a.title ++
    "\nSummary: " ++ pyStr a.summary ++ "\nSentiment: " ++ pyStr a.sentiment ++
    "\nTopics: " ++ topics)

/-- The comparative prompt (gemini_service.py:176-208), with the JSON
brace-skeleton abbreviated as in `singleArticlePrompt`. -/
def buildComparativePrompt (arts : List ArticleAnalysisR) : Except Unit String := do
  let summaries ← arts.enum.mapM (fun p => fmtArticleSummary p.1 p.2)
  Except.ok ("Analyze the following news articles and provide a comparative analysis:\n\n" ++
    String.intercalate "\n\n" summaries ++
    "\n\nPlease provide:\n1. Key coverage differences between the articles and their potential impact\n" ++
    "2. Analysis of topic overlap (common topics and unique topics per article)\n\n" ++
    "Format your response as a JSON with fields Coverage Differences and Topic Overlap.")

/-- The local sentiment count (gemini_service.py:167-173): exact count
of the three labels over the `Sentiment` fields (Python `==` is false
between a string and any non-string value). -/
def labelCount (l : String) (ss : List PyVal) : Nat :=
  ss.countP (fun v => match v with | PyVal.str s => s == l | _ => false)

/-- The dict built at gemini_service.py:169-173. -/
def sentimentDistribution (arts : List ArticleAnalysisR) : PyDict :=
  let ss := arts.map (fun a => a.sentiment)
  [("Positive", PyVal.int (labelCount "Positive" ss)),
   ("Negative", PyVal.int (labelCount "Negative" ss)),
   ("Neutral", PyVal.int (labelCount "Neutral" ss))]

/-- The `except` branch of `_generate_comparative_analysis`
(gemini_service.py:246-257): note the empty `Sentiment Distribution`. -/
def comparativeExceptionResult (e : String) : PyDict :=
  [("Sentiment Distribution", PyVal.dict []),
   ("Coverage Differences", PyVal.list [PyVal.dict
      [("Comparison", PyVal.str ("Error generating comparative analysis: " ++ e)),
       ("Impact", PyVal.str "Unknown")]]),
   ("Topic Overlap", PyVal.dict [])]

/-- The fallback `comparative` dict used when the response has no
brace-delimited payload (gemini_service.py:222-235). -/
def comparativeFallback : PyDict :=
  [("Coverage Differences", PyVal.list [PyVal.dict
      [("Comparison", PyVal.str "Failed to analyze coverage differences."),
       ("Impact", PyVal.str "Unknown")]]),
   ("Topic Overlap", PyVal.dict
      [("Common Topics", PyVal.list []),
       ("Unique Topics per Article", PyVal.dict [])])]

/-- The assembled result of `_generate_comparative_analysis` on the
non-exception path (gemini_service.py:237-242). -/
def comparativeResult (arts : List ArticleAnalysisR) (comparative : PyDict) : PyDict :=
  [("Sentiment Distribution", PyVal.dict (sentimentDistribution arts)),
   ("Coverage Differences", dGetD comparative "Coverage Differences" (PyVal.list [])),
   ("Topic Overlap", dGetD comparative "Topic Overlap" (PyVal.dict []))]

/-- `_generate_comparative_analysis` (gemini_service.py:156-257).
Returns the result dict and the number of LLM calls issued (1 unless
prompt construction raised before the call).  The error strings stored
for the prompt-build, JSON-decode and attribute failures stand for the
`str(e)` of the corresponding Python exceptions, whose exact text is a
library detail. -/
def generateComparativeAnalysis (llm : String → Except String String)
    (jsonLoads : String → Except Unit PyVal)
    (arts : List ArticleAnalysisR) : PyDict × Nat :=
  match buildComparativePrompt arts with
  | Except.error _ => (comparativeExceptionResult "TypeError", 0)
  | Except.ok p =>
    match llm p with
    | Except.error e => (comparativeExceptionResult e, 1)
    | Except.ok t =>
      match jsonExtract t with
      | none => (comparativeResult arts comparativeFallback, 1)
      | some js =>
        match jsonLoads js with
        | Except.error _ => (comparativeExceptionResult "JSONDecodeError", 1)
        | Except.ok (PyVal.dict comparative) => (comparativeResult arts comparative, 1)
        | Except.ok _ => (comparativeExceptionResult "AttributeError", 1)

/-- The final-verdict prompt (gemini_service.py:271-289), abbreviated
boilerplate as above. -/
def finalSentimentPrompt (company : String) (arts : List ArticleAnalysisR) : String :=
  let summaries := arts.enum.map (fun p =>
    "Article " ++ toString (p.1 + 1) ++ ": " ++ p.2.title ++
    "\nSummary: " ++ pyStr p.2.summary ++ "\nSentiment: " ++ pyStr p.2.sentiment)
  "Based on the following news articles about " ++ company ++ ":\n\n" ++
  String.intercalate "\n\n" summaries ++
  "\n\nProvide a concise final sentiment analysis in 2-3 sentences."

/-- `_generate_final_sentiment` (gemini_service.py:259-298). -/
def generateFinalSentiment (llm : String → Except String String)
    (company : String) (arts : List ArticleAnalysisR) : String :=
  match llm (finalSentimentPrompt company arts) with
  | Except.ok t => pyStrTrim t
  | Except.error _ =>
      "Unable to generate final sentiment analysis for " ++ company ++ " due to an error."

/-- The comparative structure used when fewer than 2 articles were
processed (gemini_service.py:67-71). -/
def emptyComparative : PyDict :=
  [("Sentiment Distribution", PyVal.dict []),
   ("Coverage Differences", PyVal.list []),
   ("Topic Overlap", PyVal.dict [])]

/-- `analyze_articles` (gemini_service.py:34-84).  Returns the result
dict and the number of LLM calls issued by the aggregation
(comparative) stage; the fixed `time.sleep(20)` pacing between
per-article calls has no observable effect on the result. -/
def analyzeArticles (llm : String → Except String String)
    (jsonLoads : String → Except Unit PyVal)
    (company : String) (articles : List Article) : PyDict × Nat :=
  if articles.isEmpty then
    ([("Company", PyVal.str company),
      ("Articles", PyVal.list []),
      ("Comparative Sentiment Score", PyVal.dict []),
      ("Final Sentiment Analysis", PyVal.str "No articles available for analysis.")], 0)
  else
    let processed := articles.map (analyzeSingleArticle llm jsonLoads)
    let compAgg :=
      if processed.length > 1 then generateComparativeAnalysis llm jsonLoads processed
      else (emptyComparative, 0)
    ([("Company", PyVal.str company),
      ("Articles", PyVal.list (processed.map ArticleAnalysisR.toPy)),
      ("Comparative Sentiment Score", PyVal.dict compAgg.1),
      ("Final Sentiment Analysis", PyVal.str (generateFinalSentiment llm company processed))],
     compAgg.2)

/-! ## TextToSpeech (src/utils/text_to_speech.py)

The googletrans translator is an oracle
`translate : PyVal → Except Unit PyVal` (the input is whatever value
was fed in; `Except.error` models a raised exception), and gTTS
construction plus `save` is an oracle
`synth : PyVal → String → Except Unit Unit` (text and output path). -/

/-- `translate_to_hindi` (text_to_speech.py:15-31): on any failure the
original input is returned unchanged. -/
def translateToHindi (translate : PyVal → Except Unit PyVal) (text : PyVal) : PyVal :=
  match translate text with
  | Except.ok t => t
  | Except.error _ => text

/-- The audio path built by `generate_audio` (text_to_speech.py:47-51):
a pure function of the company name. -/
def audioPathFor (company : String) : String :=
  "data/audio/" ++ company ++ "_hindi.mp3"

/-- `generate_audio` (text_to_speech.py:33-63).  Inside the `try`:
`if hindi_text and hindi_text.strip():` synthesize to the company path,
else set the path to `None`; the `except` branch returns the string
"None" (not the `None` value). -/
def generateAudio (synth : PyVal → String → Except Unit Unit)
    (hindiText : PyVal) (company : String) : PyVal :=
  let audioPath := audioPathFor company
  if pyTruthy hindiText then
    match pyStrip hindiText with
    | Except.error _ => PyVal.str "None"
    | Except.ok stripped =>
      if pyTruthy stripped then
        match synth hindiText audioPath with
        | Except.ok _ => PyVal.str audioPath
        | Except.error _ => PyVal.str "None"
      else PyVal.pynone
  else PyVal.pynone

/-- `process_sentiment_tts` (text_to_speech.py:65-88): extract the
verdict with a default, translate, synthesize, and return a copy of the
input dict extended with `Hindi_Translation` and `Audio_Path`. -/
def processSentimentTTS (translate : PyVal → Except Unit PyVal)
    (synth : PyVal → String → Except Unit Unit)
    (sentimentData : PyDict) (company : String) : PyDict :=
  let finalSentiment :=
    dGetD sentimentData "Final Sentiment Analysis" (PyVal.str "No sentiment analysis available")
  let hindiText := translateToHindi translate finalSentiment
  let audioPath := generateAudio synth hindiText company
  dSet (dSet sentimentData "Hindi_Translation" hindiText) "Audio_Path" audioPath

/-! ## NewsScraper (src/utils/news_scraper.py)

The `requests`/BeautifulSoup mechanics (declared external collaborators
by the specification) are oracles: `fetchLinks` stands for the whole
`try` body of `get_news_links` (returning the filtered link list, or a
raised exception), and `scrapeBody` stands for the network fetch and
soup extraction in the `try` body of `scrape_article`, returning the
page title and the whitespace-normalized content.  The repository-level
logic around them (error swallowing, the short-content filter, the
5000-char cap, the 10-article cap) is embedded exactly. -/

/-- `get_news_links` (news_scraper.py:23-66): the `except` branch maps
any failure to the empty list. -/
def getNewsLinks (fetchLinks : String → Nat → Except Unit (List String))
    (company : String) (numArticles : Nat) : List String :=
  match fetchLinks company numArticles with
  | Except.ok links => links
  | Except.error _ => []

/-- `scrape_article` (news_scraper.py:68-119): on success the cleaned
content is replaced by a fixed marker when shorter than 100 characters
and truncated to 5000 characters; the `except` branch returns a
placeholder article carrying the exception text. -/
def scrapeArticle (scrapeBody : String → Except String (String × String))
    (url : String) : Article :=
  match scrapeBody url with
  | Except.ok (title, content) =>
      let content :=
        if content.length < 100 then
          "Unable to extract meaningful content from this webpage."
        else content
      { url := url, title := title, content := content.take 5000 }
  | Except.error e =>
      { url := url, title := "Error scraping article",
        content := "Failed to extract content: " ++ e }

/-- `get_company_news` (news_scraper.py:121-142): scrape each link,
keep articles whose content is not the short-content marker, and stop
appending once 10 articles are collected. -/
def getCompanyNews (fetchLinks : String → Nat → Except Unit (List String))
    (scrapeBody : String → Except String (String × String))
    (company : String) (numArticles : Nat) : List Article :=
  let links := getNewsLinks fetchLinks company numArticles
  links.foldl (fun articles link =>
    let a := scrapeArticle scrapeBody link
    if a.content ≠ "Unable to extract meaningful content from this webpage." ∧
        articles.length < 10 then
      articles ++ [a]
    else articles) []

/-! ## API layer and persistence (src/api.py, src/cron.py)

The pickle store on disk is an association list from file path to
record; `pickle.dump`/`json.dump` serialization is abstracted to
storing the record value itself (round-trip faithful). -/

/-- The cache-key normalization inside `get_pickle_path` (api.py:96)
and the twin expressions in `analyze_company` (api.py:176) and
`process_company` (cron.py:78): `company_name.lower().replace(' ', '_')`.
Lowercasing is per character, and replacing the one-character pattern
is exactly the per-character substitution. -/
def normalizeName (s : String) : String :=
  String.mk ((s.toList.map Char.toLower).map (fun c => if c = ' ' then '_' else c))

/-- `get_pickle_path` (api.py:94-97): `os.path.join('data', 'output',
normalized + '.pkl')`. -/
def getPicklePath (c : String) : String :=
  "data/output/" ++ normalizeName c ++ ".pkl"

/-- The JSON mirror path (api.py:176, cron.py:83). -/
def getJsonPath (c : String) : String :=
  "data/output/" ++ normalizeName c ++ ".json"

/-- The on-disk store: path to record. -/
abbrev Store := List (String × PyDict)

/-- Read a path from the store. -/
def storeGet (st : Store) (k : String) : Option PyDict :=
  aGet st k

/-- Overwrite a path in the store. -/
def storeSet (st : Store) (k : String) (v : PyDict) : Store :=
  aSet st k v

/-- `load_sentiment_data` (api.py:100-113): resolve the pickle path and
read it; a missing file (or a failed unpickle, folded into absence)
yields `none`. -/
def loadSentimentData (st : Store) (company : String) : Option PyDict :=
  storeGet st (getPicklePath company)

/-- The minimal record returned by `analyze_company` when the scraper
yields no articles (api.py:143-151). -/
def noArticlesRecord (company : String) : PyDict :=
  [("Company", PyVal.str company),
   ("Articles", PyVal.list []),
   ("Overall_Sentiment", PyVal.str "Unknown"),
   ("Sentiment_Score", PyVal.int 0),
   ("Final_Sentiment_Analysis", PyVal.str "No articles found for analysis.")]

/-- The ticker enrichment in `analyze_company` (api.py:157-161); the
company list stands for the rows of `data/company_list.csv` with an
optional ticker column value. -/
def addTicker (companyList : List (String × Option String))
    (company : String) (analysis : PyDict) : PyDict :=
  match companyList.find? (fun p => p.1 == company) with
  | some (_, some t) => dSet analysis "Ticker" (PyVal.str t)
  | _ => analysis

/-- `analyze_company` (api.py:128-185): scrape, early-exit on an empty
article list (before any Gemini or TTS call and before any write),
otherwise analyze, enrich, localize, and persist to both the pickle
path and the JSON mirror. -/
def analyzeCompany (fetchLinks : String → Nat → Except Unit (List String))
    (scrapeBody : String → Except String (String × String))
    (llm : String → Except String String)
    (jsonLoads : String → Except Unit PyVal)
    (translate : PyVal → Except Unit PyVal)
    (synth : PyVal → String → Except Unit Unit)
    (companyList : List (String × Option String))
    (store : Store) (company : String) : PyDict × Store :=
  let articles := getCompanyNews fetchLinks scrapeBody company 10
  if articles.isEmpty then
    (noArticlesRecord company, store)
  else
    let analysis := (analyzeArticles llm jsonLoads company articles).1
    let analysis := addTicker companyList company analysis
    let analysis := processSentimentTTS translate synth analysis company
    let store := storeSet store (getPicklePath company) analysis
    let store := storeSet store (getJsonPath company) analysis
    (analysis, store)

/-- `generate_hindi_tts` (api.py:115-125): a try/except wrapper around
`process_sentiment_tts`, which is total in this model, so the wrapper
is the call itself. -/
def generateHindiTTS (translate : PyVal → Except Unit PyVal)
    (synth : PyVal → String → Except Unit Unit)
    (d : PyDict) (company : String) : PyDict :=
  processSentimentTTS translate synth d company

/-- `GET /sentiment/company_name` (api.py:206-242).  `Except.error`
carries the HTTP status of a raised `HTTPException`.  Python
`if not sentiment_data:` treats an empty dict like a missing record.
The TTS branch runs when `generate_tts` is set or either localization
key is missing, then overwrites the pickle path with the refreshed
record (the inner try/except never fires in this model: the refreshed
record always carries `Audio_Path`, so the `print` cannot raise). -/
def getSentiment (translate : PyVal → Except Unit PyVal)
    (synth : PyVal → String → Except Unit Unit)
    (companyNames : List String) (store : Store)
    (company : String) (generateTts : Bool) : Except Nat (PyDict × Store) :=
  if companyNames.contains company then
    match loadSentimentData store company with
    | none => Except.error 404
    | some d =>
      if d.isEmpty then Except.error 404
      else
        if generateTts || (dGet d "Hindi_Translation").isNone
            || (dGet d "Audio_Path").isNone then
          let d2 := generateHindiTTS translate synth d company
          let store2 := storeSet store (getPicklePath company) d2
          Except.ok (d2, store2)
        else Except.ok (d, store)
  else Except.error 404

/-! ## File-system event trace of the persistence step

`with open(pickle_path, 'wb') as f: pickle.dump(analysis, f)`
(api.py:171-173, repeated at api.py:235-237 and cron.py:78-80) is a
truncating open of the final path followed by the serialized write.  A
trace semantics makes the intermediate state a concurrent reader can
observe explicit. -/

/-- An observable file-system mutation. -/
inductive FsEvent where
  | openTrunc (path : String)
  | writeRecord (path : String) (r : PyDict)
  | rename (src dst : String)

/-- What a reader sees at a path. -/
inductive FileContent where
  | absent
  | partialData
  | complete (r : PyDict)

/-- File-system state: content by path. -/
abbrev Fs := String → FileContent

/-- Effect of one event: a truncating open leaves partial (empty)
data; a completed write leaves the whole record; a rename moves the
source content onto the destination. -/
def applyEvent (fs : Fs) : FsEvent → Fs
  | FsEvent.openTrunc p => fun q => if q = p then FileContent.partialData else fs q
  | FsEvent.writeRecord p r => fun q => if q = p then FileContent.complete r else fs q
  | FsEvent.rename src dst => fun q =>
      if q = dst then fs src else if q = src then FileContent.absent else fs q

/-- All states a concurrent reader can observe while the trace runs
(before, between and after the events). -/
def statesAfter (fs : Fs) : List FsEvent → List Fs
  | [] => [fs]
  | e :: es => fs :: statesAfter (applyEvent fs e) es

/-- The event trace of the pickle write in `analyze_company`
(api.py:171-173) and `process_company` (cron.py:78-80): a truncating
open of the final pickle path, then the dump — no temporary location,
no rename. -/
def savePickleTrace (company : String) (r : PyDict) : List FsEvent :=
  [FsEvent.openTrunc (getPicklePath company),
   FsEvent.writeRecord (getPicklePath company) r]

/-- The atomicity property the specification asserts: at every
observable point of the write trace, a reader of the record path sees
either the old record or the new one, never anything partial. -/
def atomicForReaders (trace : List FsEvent) (path : String)
    (oldR newR : PyDict) (fs0 : Fs) : Prop :=
  ∀ s ∈ statesAfter fs0 trace,
    s path = FileContent.complete oldR ∨ s path = FileContent.complete newR

/-! ## Derived observations and concrete fixtures used by the theorems -/

/-- The integer carried by a `PyVal.int`, with a default (used to read
the counts back out of the distribution dict). -/
def pyIntD (v : PyVal) (d : Int) : Int :=
  match v with
  | PyVal.int n => n
  | _ => d

/-- The total of the three counts stored in the computed
`Sentiment Distribution` dict. -/
def distributionTotal (arts : List ArticleAnalysisR) : Int :=
  pyIntD (dGetD (sentimentDistribution arts) "Positive" (PyVal.int 0)) 0 +
  pyIntD (dGetD (sentimentDistribution arts) "Negative" (PyVal.int 0)) 0 +
  pyIntD (dGetD (sentimentDistribution arts) "Neutral" (PyVal.int 0)) 0

/-- Whether a sentiment value is one of the three labels the code
counts. -/
def isCoreLabel : PyVal → Bool
  | PyVal.str s => s == "Positive" || s == "Negative" || s == "Neutral"
  | _ => false

/-- A comparative-analysis value whose three fields all read back
empty (the reading a caller of the aggregation step performs). -/
def comparativeEmpty : PyVal → Prop
  | PyVal.dict d =>
      dGetD d "Sentiment Distribution" (PyVal.dict []) = PyVal.dict [] ∧
      dGetD d "Coverage Differences" (PyVal.list []) = PyVal.list [] ∧
      dGetD d "Topic Overlap" (PyVal.dict []) = PyVal.dict []
  | _ => False

/-- Two analyses with one Positive and one Negative label and
well-formed topics, for exercising the aggregation step. -/
def cexArts : List ArticleAnalysisR :=
  [{ title := "a", url := "ua", summary := PyVal.str "sa",
     sentiment := PyVal.str "Positive", topics := PyVal.list [PyVal.str "t1"] },
   { title := "b", url := "ub", summary := PyVal.str "sb",
     sentiment := PyVal.str "Negative", topics := PyVal.list [PyVal.str "t2"] }]

/-- Two analyses carrying a label outside the three counted ones. -/
def cexMixedArts : List ArticleAnalysisR :=
  [{ title := "a", url := "ua", summary := PyVal.str "sa",
     sentiment := PyVal.str "Mixed", topics := PyVal.list [PyVal.str "t1"] },
   { title := "b", url := "ub", summary := PyVal.str "sb",
     sentiment := PyVal.str "Mixed", topics := PyVal.list [PyVal.str "t2"] }]

/-- A concrete raw article. -/
def cexArticle : Article :=
  { url := "u", title := "T", content := "C" }

/-- A cached record that already carries both localization fields. -/
def cexCachedRecord : PyDict :=
  [("Final Sentiment Analysis", PyVal.str "Good outlook."),
   ("Hindi_Translation", PyVal.str "cached-translation"),
   ("Audio_Path", PyVal.str "data/audio/old.mp3")]

/-- A pre-existing record and its replacement, for the persistence
trace. -/
def cexOldRecord : PyDict := [("Company", PyVal.str "old")]

/-- See `cexOldRecord`. -/
def cexNewRecord : PyDict := [("Company", PyVal.str "new")]

/-- A file system holding the old record at the Tesla pickle path. -/
def cexFs : Fs := fun q =>
  if q = getPicklePath "Tesla" then FileContent.complete cexOldRecord else FileContent.absent


/-- A translation oracle returning a fixed fresh translation. -/
def cexTranslate : PyVal → Except Unit PyVal := fun _ => Except.ok (PyVal.str "naya")

/-- A synthesis oracle that always succeeds. -/
def cexSynth : PyVal → String → Except Unit Unit := fun _ _ => Except.ok ()

/-- A store holding the cached Tesla record. -/
def cexStore : Store := [(getPicklePath "Tesla", cexCachedRecord)]

/-- The record after the localizer re-run of the read endpoint. -/
def cexRefreshed : PyDict := generateHindiTTS cexTranslate cexSynth cexCachedRecord "Tesla"

/-! ## Theorems -/

theorem find?_map_upsert {α : Type} (k : String) (v : α) (d : List (String × α))
    (hd : (d.find? (fun p => p.1 == k)).isSome = true) :
    ((d.map (fun p => if p.1 == k then (k, v) else p)).find? (fun p => p.1 == k))
      = some (k, v) := by
  induction d with
  | nil => simp at hd
  | cons a d ih =>
    by_cases ha : a.1 = k
    · simp only [List.map_cons]
      rw [if_pos (by simp [ha])]
      exact List.find?_cons_of_pos _ (by simp)
    · simp only [List.map_cons]
      rw [if_neg (by simp [ha])]
      rw [List.find?_cons_of_neg _ (by simp [ha])]
      apply ih
      rw [List.find?_cons_of_neg _ (by simp [ha])] at hd
      exact hd

theorem find?_append_upsert {α : Type} (k : String) (v : α) (d : List (String × α))
    (hd : (d.find? (fun p => p.1 == k)).isSome = false) :
    ((d ++ [(k, v)]).find? (fun p => p.1 == k)) = some (k, v) := by
  induction d with
  | nil =>
    simp only [List.nil_append]
    exact List.find?_cons_of_pos _ (by simp)
  | cons a d ih =>
    by_cases ha : a.1 = k
    · rw [List.find?_cons_of_pos _ (by simp [ha])] at hd
      simp at hd
    · rw [List.cons_append, List.find?_cons_of_neg _ (by simp [ha])]
      apply ih
      rw [List.find?_cons_of_neg _ (by simp [ha])] at hd
      exact hd

theorem aGet_aSet_self {α : Type} (d : List (String × α)) (k : String) (v : α) :
    aGet (aSet d k v) k = some v := by
  rw [aGet, aSet]
  by_cases hd : (d.find? (fun p => p.1 == k)).isSome
  · rw [if_pos hd, find?_map_upsert k v d hd]
    rfl
  · rw [if_neg hd, find?_append_upsert k v d
      (by simp only [Bool.not_eq_true] at hd; exact hd)]
    rfl

theorem find?_map_upsert_ne {α : Type} (k k2 : String) (v : α)
    (d : List (String × α)) (hne : k ≠ k2) :
    ((d.map (fun p => if p.1 == k then (k, v) else p)).find? (fun p => p.1 == k2))
      = d.find? (fun p => p.1 == k2) := by
  induction d with
  | nil => rfl
  | cons a d ih =>
    by_cases ha : a.1 = k
    · simp only [List.map_cons]
      rw [if_pos (by simp [ha])]
      rw [List.find?_cons_of_neg _ (by simp [hne])]
      rw [List.find?_cons_of_neg _ (by simp [ha, hne])]
      exact ih
    · simp only [List.map_cons]
      rw [if_neg (by simp [ha])]
      by_cases ha2 : a.1 = k2
      · rw [List.find?_cons_of_pos _ (by simp [ha2]),
          List.find?_cons_of_pos _ (by simp [ha2])]
      · rw [List.find?_cons_of_neg _ (by simp [ha2]),
          List.find?_cons_of_neg _ (by simp [ha2]), ih]

theorem aGet_aSet_ne {α : Type} (d : List (String × α)) (k k2 : String) (v : α)
    (hne : k ≠ k2) :
    aGet (aSet d k v) k2 = aGet d k2 := by
  rw [aGet, aSet]
  by_cases hd : (d.find? (fun p => p.1 == k)).isSome
  · rw [if_pos hd, find?_map_upsert_ne k k2 v d hne]
    rfl
  · rw [if_neg hd, List.find?_append]
    have hsingle : (([((k : String), v)]).find? (fun p => p.1 == k2)) = none := by
      rw [List.find?_cons_of_neg _ (by simp [hne])]
      rfl
    rw [hsingle]
    simp [aGet]

/-- C6: the cache key is the lowercase, underscore-for-space
normalization of the company name, so any two raw spellings that
normalize identically resolve to the same pickle path, and a save under
one spelling is loaded back under the other. -/
theorem cache_key_collision (a b : String) (r : PyDict) (st : Store)
    (h : normalizeName a = normalizeName b) :
    getPicklePath a = getPicklePath b ∧
    loadSentimentData (storeSet st (getPicklePath a) r) b = some r := by
  have hpath : getPicklePath a = getPicklePath b := by
    rw [getPicklePath, getPicklePath, h]
  refine ⟨hpath, ?_⟩
  rw [loadSentimentData, ← hpath, storeGet, storeSet]
  exact aGet_aSet_self st (getPicklePath a) r

/-- Witness for C6 at the spellings "Tesla Inc" and "tesla inc". -/
theorem cache_key_collision_witness :
    getPicklePath "Tesla Inc" = getPicklePath "tesla inc" ∧
    loadSentimentData (storeSet [] (getPicklePath "Tesla Inc") cexCachedRecord) "tesla inc"
      = some cexCachedRecord :=
  cache_key_collision "Tesla Inc" "tesla inc" cexCachedRecord [] (by decide)

/-- C3: for fewer than 2 input articles, `analyze_articles` returns a
comparative analysis whose sentiment distribution, coverage differences
and topic overlap all read back empty, and the aggregation stage issues
no LLM call. -/
theorem aggregation_empty_below_two
    (llm : String → Except String String) (jsonLoads : String → Except Unit PyVal)
    (company : String) (articles : List Article)
    (h : articles.length < 2) :
    comparativeEmpty (dGetD (analyzeArticles llm jsonLoads company articles).1
        "Comparative Sentiment Score" PyVal.pynone) ∧
    (analyzeArticles llm jsonLoads company articles).2 = 0 := by
  rcases articles with _ | ⟨a, _ | ⟨b, rest⟩⟩
  · exact ⟨⟨rfl, rfl, rfl⟩, rfl⟩
  · exact ⟨⟨rfl, rfl, rfl⟩, rfl⟩
  · simp only [List.length_cons] at h
    omega

/-- Witness for C3 at a single concrete article with failing oracles. -/
theorem aggregation_empty_below_two_witness :
    comparativeEmpty (dGetD (analyzeArticles (fun _ => Except.error "down")
        (fun _ => Except.error ()) "Acme" [cexArticle]).1
        "Comparative Sentiment Score" PyVal.pynone) ∧
    (analyzeArticles (fun _ => Except.error "down")
        (fun _ => Except.error ()) "Acme" [cexArticle]).2 = 0 :=
  aggregation_empty_below_two _ _ "Acme" [cexArticle] (by decide)

/-- C2: when the scraper yields no usable articles, `analyze_company`
returns the minimal record (empty articles, overall sentiment Unknown,
fixed no-articles verdict, no audio path) with the store untouched, and
the result does not depend on the LLM, translation or synthesis
capabilities — the later stages are skipped. -/
theorem analyze_company_empty_short_circuit
    (fetchLinks : String → Nat → Except Unit (List String))
    (scrapeBody : String → Except String (String × String))
    (llm : String → Except String String) (jsonLoads : String → Except Unit PyVal)
    (translate : PyVal → Except Unit PyVal) (synth : PyVal → String → Except Unit Unit)
    (companyList : List (String × Option String)) (store : Store) (company : String)
    (h : getCompanyNews fetchLinks scrapeBody company 10 = []) :
    analyzeCompany fetchLinks scrapeBody llm jsonLoads translate synth companyList store company
      = (noArticlesRecord company, store) ∧
    dGet (noArticlesRecord company) "Articles" = some (PyVal.list []) ∧
    dGet (noArticlesRecord company) "Overall_Sentiment" = some (PyVal.str "Unknown") ∧
    dGet (noArticlesRecord company) "Final_Sentiment_Analysis"
      = some (PyVal.str "No articles found for analysis.") ∧
    dGet (noArticlesRecord company) "Audio_Path" = none := by
  refine ⟨?_, rfl, rfl, rfl, rfl⟩
  simp only [analyzeCompany, h]
  rfl

/-- Witness for C2 with a failing link source. -/
theorem analyze_company_empty_short_circuit_witness :
    analyzeCompany (fun _ _ => Except.error ()) (fun _ => Except.error "down")
        (fun _ => Except.error "llm down") (fun _ => Except.error ())
        (fun _ => Except.error ()) (fun _ _ => Except.error ()) [] [] "Tesla"
      = (noArticlesRecord "Tesla", []) ∧
    dGet (noArticlesRecord "Tesla") "Articles" = some (PyVal.list []) ∧
    dGet (noArticlesRecord "Tesla") "Overall_Sentiment" = some (PyVal.str "Unknown") ∧
    dGet (noArticlesRecord "Tesla") "Final_Sentiment_Analysis"
      = some (PyVal.str "No articles found for analysis.") ∧
    dGet (noArticlesRecord "Tesla") "Audio_Path" = none :=
  analyze_company_empty_short_circuit _ _ _ _ _ _ _ _ _ rfl

/-- C10: a read through the sentiment endpoint with the default
`generate_tts = true` against an existing cached record re-runs the
localizer unconditionally — no hypothesis restricts the presence of
`Hindi_Translation`/`Audio_Path` in the record — and overwrites the
pickle path with the refreshed record, whose translation field is the
freshly computed one. -/
theorem get_sentiment_rewrites_cache
    (translate : PyVal → Except Unit PyVal) (synth : PyVal → String → Except Unit Unit)
    (companyNames : List String) (store : Store) (company : String) (d : PyDict)
    (hmem : companyNames.contains company = true)
    (hload : loadSentimentData store company = some d)
    (hne : d.isEmpty = false) :
    getSentiment translate synth companyNames store company true
      = Except.ok (generateHindiTTS translate synth d company,
          storeSet store (getPicklePath company) (generateHindiTTS translate synth d company)) ∧
    loadSentimentData
        (storeSet store (getPicklePath company) (generateHindiTTS translate synth d company))
        company
      = some (generateHindiTTS translate synth d company) ∧
    dGet (generateHindiTTS translate synth d company) "Hindi_Translation"
      = some (translateToHindi translate
          (dGetD d "Final Sentiment Analysis" (PyVal.str "No sentiment analysis available"))) := by
  refine ⟨?_, ?_, ?_⟩
  · simp only [getSentiment, hmem, hload, hne, if_true, Bool.true_or, Bool.false_eq_true,
      if_false]
  · rw [loadSentimentData, storeGet, storeSet]
    exact aGet_aSet_self _ _ _
  · rw [generateHindiTTS, processSentimentTTS]
    rw [dGet, dSet, dSet, aGet_aSet_ne _ _ _ _ (by decide)]
    exact aGet_aSet_self _ _ _

/-- Witness for C10: the cached record already carries both
localization fields, yet the read refreshes and re-persists them. -/
theorem get_sentiment_rewrites_cache_witness :
    getSentiment cexTranslate cexSynth ["Tesla"] cexStore "Tesla" true
      = Except.ok (cexRefreshed, storeSet cexStore (getPicklePath "Tesla") cexRefreshed) ∧
    loadSentimentData (storeSet cexStore (getPicklePath "Tesla") cexRefreshed) "Tesla"
      = some cexRefreshed ∧
    dGet cexRefreshed "Hindi_Translation"
      = some (translateToHindi cexTranslate
          (dGetD cexCachedRecord "Final Sentiment Analysis"
            (PyVal.str "No sentiment analysis available"))) :=
  get_sentiment_rewrites_cache cexTranslate cexSynth ["Tesla"] cexStore "Tesla"
    cexCachedRecord rfl rfl rfl

/-- C5 (amended): the Localizer is total and degrades instead of
raising — translation failure returns the original text unchanged;
text that is empty or blank after stripping yields `audio_path = None`
for every synthesis capability (the capability is never consulted);
but a synthesis failure yields the sentinel string "None", not the
absent value. -/
theorem localizer_amended :
    (∀ (translate : PyVal → Except Unit PyVal) (text : PyVal),
        translate text = Except.error () → translateToHindi translate text = text) ∧
    (∀ (synth : PyVal → String → Except Unit Unit) (s company : String),
        pyStrTrim s = "" → generateAudio synth (PyVal.str s) company = PyVal.pynone) ∧
    (∀ (synth : PyVal → String → Except Unit Unit) (s company : String),
        pyStrTrim s ≠ "" →
        synth (PyVal.str s) (audioPathFor company) = Except.error () →
        generateAudio synth (PyVal.str s) company = PyVal.str "None") := by
  refine ⟨?_, ?_, ?_⟩
  · intro translate text h
    rw [translateToHindi, h]
  · intro synth s company h
    by_cases hs : s = ""
    · simp [generateAudio, pyTruthy, hs]
    · simp [generateAudio, pyTruthy, pyStrip, hs, h]
  · intro synth s company htrim hsynth
    have hs : s ≠ "" := by
      intro h0
      exact htrim (by rw [h0]; rfl)
    simp [generateAudio, pyTruthy, pyStrip, hs, htrim, hsynth]

/-- Witness for C5 at concrete texts and capabilities. -/
theorem localizer_amended_witness :
    translateToHindi (fun _ => Except.error ()) (PyVal.str "Good outlook.")
      = PyVal.str "Good outlook." ∧
    generateAudio cexSynth (PyVal.str "   ") "Tesla" = PyVal.pynone ∧
    generateAudio (fun _ _ => Except.error ()) (PyVal.str "namaste") "Tesla"
      = PyVal.str "None" :=
  ⟨localizer_amended.1 _ _ rfl,
   localizer_amended.2.1 cexSynth "   " "Tesla" (by decide),
   localizer_amended.2.2 _ "namaste" "Tesla" (by decide) rfl⟩

/-- Counterexample for C5 as stated: on synthesis failure the audio
path is the string "None", which is not the absent value. -/
theorem localizer_synth_failure_counterexample :
    generateAudio (fun _ _ => Except.error ()) (PyVal.str "namaste") "Tesla"
      = PyVal.str "None" ∧
    PyVal.str "None" ≠ PyVal.pynone :=
  ⟨rfl, fun h => PyVal.noConfusion h⟩

/-- C4 (amended): analyzing a single article never propagates a
failure — a raised LLM exception, and likewise a malformed payload
between the braces (whose parse raises), yield the degraded record
with sentiment Neutral, topics ["Error"] and summary "Error analyzing
article content."; a response with no brace-delimited payload yields
sentiment Neutral, topics ["Unknown"] and summary "Failed to generate
summary." (not the "No summary available" default named by the claim,
which only appears when a payload parses but lacks the Summary
field). -/
theorem analyze_single_degraded
    (jsonLoads : String → Except Unit PyVal) (a : Article) (t e : String) :
    (analyzeSingleArticle (fun _ => Except.error e) jsonLoads a
      = errorArticleAnalysis a) ∧
    (jsonExtract t = none →
      analyzeSingleArticle (fun _ => Except.ok t) jsonLoads a
        = unparseableArticleAnalysis a) ∧
    (∀ js, jsonExtract t = some js → jsonLoads js = Except.error () →
      analyzeSingleArticle (fun _ => Except.ok t) jsonLoads a
        = errorArticleAnalysis a) := by
  refine ⟨rfl, ?_, ?_⟩
  · intro h
    simp only [analyzeSingleArticle, h]
  · intro js h hl
    simp only [analyzeSingleArticle, h, hl]

/-- Witness for C4 at a concrete article, a failing LLM and a
payload-free response. -/
theorem analyze_single_degraded_witness :
    analyzeSingleArticle (fun _ => Except.error "boom") (fun _ => Except.error ())
        cexArticle = errorArticleAnalysis cexArticle ∧
    analyzeSingleArticle (fun _ => Except.ok "no payload") (fun _ => Except.error ())
        cexArticle = unparseableArticleAnalysis cexArticle :=
  ⟨(analyze_single_degraded (fun _ => Except.error ()) cexArticle "no payload" "boom").1,
   (analyze_single_degraded (fun _ => Except.error ()) cexArticle "no payload" "boom").2.1
     (by decide)⟩

/-- Counterexample for C4 as stated: in the unparseable-response branch
the summary is "Failed to generate summary.", not the "no summary
available" value named by the claim. -/
theorem analyze_single_summary_counterexample :
    (analyzeSingleArticle (fun _ => Except.ok "no payload") (fun _ => Except.error ())
        cexArticle).summary = PyVal.str "Failed to generate summary." ∧
    PyVal.str "Failed to generate summary." ≠ PyVal.str "No summary available" ∧
    PyVal.str "Failed to generate summary." ≠ PyVal.str "no summary available" := by
  refine ⟨rfl, ?_, ?_⟩
  · intro h
    injection h with h2
    exact absurd h2 (by decide)
  · intro h
    injection h with h2
    exact absurd h2 (by decide)

/-- C9 (amended): fetching is total and best-effort — a failing link
list yields the empty sequence, the result never exceeds 10 articles,
but a per-article scrape failure does not merely reduce the result: the
failed article is returned as a placeholder (title "Error scraping
article", content carrying the exception text) which always passes the
short-content filter and is appended to the sequence. -/
theorem fetch_best_effort_amended :
    (∀ (fetchLinks : String → Nat → Except Unit (List String))
        (scrapeBody : String → Except String (String × String)) (c : String) (n : Nat),
        fetchLinks c n = Except.error () →
        getCompanyNews fetchLinks scrapeBody c n = []) ∧
    (∀ (fetchLinks : String → Nat → Except Unit (List String))
        (scrapeBody : String → Except String (String × String)) (c : String) (n : Nat),
        (getCompanyNews fetchLinks scrapeBody c n).length ≤ 10) ∧
    (∀ (scrapeBody : String → Except String (String × String)) (url e : String),
        scrapeBody url = Except.error e →
        scrapeArticle scrapeBody url
          = { url := url, title := "Error scraping article",
              content := "Failed to extract content: " ++ e } ∧
        ("Failed to extract content: " ++ e)
          ≠ "Unable to extract meaningful content from this webpage.") := by
  refine ⟨?_, ?_, ?_⟩
  · intro fetchLinks scrapeBody c n h
    simp only [getCompanyNews, getNewsLinks, h]
    rfl
  · intro fetchLinks scrapeBody c n
    simp only [getCompanyNews]
    have haux : ∀ (links : List String) (acc : List Article), acc.length ≤ 10 →
        (links.foldl (fun articles link =>
          let a := scrapeArticle scrapeBody link
          if a.content ≠ "Unable to extract meaningful content from this webpage." ∧
              articles.length < 10 then
            articles ++ [a]
          else articles) acc).length ≤ 10 := by
      intro links
      induction links with
      | nil => intro acc h; simpa using h
      | cons l ls ih =>
        intro acc h
        simp only [List.foldl_cons]
        by_cases hc : (scrapeArticle scrapeBody l).content
            ≠ "Unable to extract meaningful content from this webpage." ∧ acc.length < 10
        · rw [if_pos hc]
          exact ih _ (by simp only [List.length_append, List.length_cons,
            List.length_nil]; omega)
        · rw [if_neg hc]
          exact ih _ h
    exact haux _ [] (by simp)
  · intro scrapeBody url e h
    refine ⟨by simp only [scrapeArticle, h], ?_⟩
    intro heq
    have hdata := congrArg String.data heq
    have hh := congrArg List.head? hdata
    simp at hh

/-- Witness for C9 with a failing link source and a failing scraper. -/
theorem fetch_best_effort_amended_witness :
    getCompanyNews (fun _ _ => Except.error ()) (fun _ => Except.error "down") "Tesla" 10
      = [] ∧
    (getCompanyNews (fun _ _ => Except.ok ["u1"]) (fun _ => Except.error "boom")
        "Tesla" 10).length ≤ 10 ∧
    scrapeArticle (fun _ => Except.error "boom") "u1"
      = { url := "u1", title := "Error scraping article",
          content := "Failed to extract content: " ++ "boom" } :=
  ⟨fetch_best_effort_amended.1 _ _ "Tesla" 10 rfl,
   fetch_best_effort_amended.2.1 _ _ "Tesla" 10,
   (fetch_best_effort_amended.2.2 _ "u1" "boom" rfl).1⟩

/-- Counterexample for C9 as stated: a per-article scrape failure does
not reduce the result size — the single failing link still produces a
one-element result holding the error placeholder article. -/
theorem scrape_failure_not_dropped :
    getCompanyNews (fun _ _ => Except.ok ["u1"]) (fun _ => Except.error "boom") "Tesla" 10
      = [{ url := "u1", title := "Error scraping article",
           content := "Failed to extract content: boom" }] ∧
    (getCompanyNews (fun _ _ => Except.ok ["u1"]) (fun _ => Except.error "boom")
        "Tesla" 10).length = 1 :=
  ⟨rfl, rfl⟩

theorem core_label_ite (v : PyVal) :
    ((if (match v with | PyVal.str s => s == "Positive" | _ => false) then 1 else 0) : Nat)
      + (if (match v with | PyVal.str s => s == "Negative" | _ => false) then 1 else 0)
      + (if (match v with | PyVal.str s => s == "Neutral" | _ => false) then 1 else 0)
      = if isCoreLabel v then 1 else 0 := by
  cases v with
  | str s =>
    by_cases h1 : s = "Positive"
    · subst h1; decide
    · by_cases h2 : s = "Negative"
      · subst h2; decide
      · by_cases h3 : s = "Neutral"
        · subst h3; decide
        · have b1 : (s == "Positive") = false := by simp [h1]
          have b2 : (s == "Negative") = false := by simp [h2]
          have b3 : (s == "Neutral") = false := by simp [h3]
          simp [isCoreLabel, b1, b2, b3]
  | int n => rfl
  | list xs => rfl
  | dict fs => rfl
  | pynone => rfl

theorem labelCount_core_split (ss : List PyVal) :
    labelCount "Positive" ss + labelCount "Negative" ss + labelCount "Neutral" ss
      = ss.countP isCoreLabel := by
  induction ss with
  | nil => rfl
  | cons v ss ih =>
    simp only [labelCount, List.countP_cons] at ih ⊢
    have hv := core_label_ite v
    omega

/-- C7 (amended): the three counts of the computed sentiment
distribution sum to the number of input analyses whose sentiment is
exactly one of the labels Positive, Negative, Neutral — hence the total
never exceeds the number of entries, and equals it only when every
label is one of those three; for any other mix of labels the entries
with outside labels are simply not counted. -/
theorem distribution_total_amended (arts : List ArticleAnalysisR) :
    distributionTotal arts
      = ((arts.countP (fun a => isCoreLabel a.sentiment) : Nat) : Int) ∧
    distributionTotal arts ≤ (arts.length : Int) := by
  have key : distributionTotal arts
      = ((labelCount "Positive" (arts.map (fun a => a.sentiment))
          + labelCount "Negative" (arts.map (fun a => a.sentiment))
          + labelCount "Neutral" (arts.map (fun a => a.sentiment)) : Nat) : Int) := by
    simp only [distributionTotal, sentimentDistribution, dGetD, dGet, aGet, pyIntD]
    push_cast
    rfl
  have hsplit := labelCount_core_split (arts.map (fun a => a.sentiment))
  have hmap : (arts.map (fun a => a.sentiment)).countP isCoreLabel
      = arts.countP (fun a => isCoreLabel a.sentiment) := List.countP_map _ _ _
  constructor
  · rw [key, hsplit, hmap]
  · rw [key, hsplit, hmap]
    have hle : arts.countP (fun a => isCoreLabel a.sentiment) ≤ arts.length :=
      List.countP_le_length _
    exact_mod_cast hle

/-- Counterexample for C7 as stated: with two entries labelled "Mixed"
the counts sum to 0, not to the number of entries. -/
theorem distribution_total_counterexample :
    2 ≤ cexMixedArts.length ∧
    distributionTotal cexMixedArts ≠ (cexMixedArts.length : Int) :=
  ⟨by decide, by decide⟩

/-- C8 (amended): the persistence step writes the record directly in
place — its trace is a truncating open of the final pickle path
followed by the dump, with no rename from a temporary location — so a
load interleaved between the two steps observes partial data (neither
the old nor the new record), while the final state holds the new
record. -/
theorem save_trace_in_place (company : String) (r : PyDict) (fs0 : Fs) :
    (∃ s ∈ statesAfter fs0 (savePickleTrace company r),
        s (getPicklePath company) = FileContent.partialData) ∧
    ((savePickleTrace company r).foldl applyEvent fs0) (getPicklePath company)
      = FileContent.complete r ∧
    (∀ src dst, FsEvent.rename src dst ∉ savePickleTrace company r) := by
  refine ⟨⟨applyEvent fs0 (FsEvent.openTrunc (getPicklePath company)), ?_, ?_⟩, ?_, ?_⟩
  · simp [statesAfter, savePickleTrace]
  · simp [applyEvent]
  · simp [savePickleTrace, applyEvent]
  · intro src dst hmem
    simp [savePickleTrace] at hmem

/-- Counterexample for C8 as stated: starting from a store holding the
old Tesla record, the reader state between the truncating open and the
completed dump sees neither the old nor the new record, so the write is
not atomic for readers (there is no temporary-location-then-move
step). -/
theorem save_not_atomic_counterexample :
    ¬ atomicForReaders (savePickleTrace "Tesla" cexNewRecord) (getPicklePath "Tesla")
        cexOldRecord cexNewRecord cexFs := by
  intro h
  have hmid := h (applyEvent cexFs (FsEvent.openTrunc (getPicklePath "Tesla")))
    (by simp [statesAfter, savePickleTrace])
  have hread : (applyEvent cexFs (FsEvent.openTrunc (getPicklePath "Tesla")))
      (getPicklePath "Tesla") = FileContent.partialData := by
    simp [applyEvent]
  rw [hread] at hmid
  rcases hmid with hmid | hmid
  · exact FileContent.noConfusion hmid
  · exact FileContent.noConfusion hmid

/-- C1 (amended): for article sequences whose comparative prompt
builds (at least 2 articles in the callers), the aggregation keeps the
locally computed sentiment distribution when the narrative LLM request
succeeds — whether its payload parses to a structured object or holds
no braces at all — but when the request raises an exception the except
branch returns an empty distribution: the locally computed counts are
lost in that outcome. -/
theorem comparative_distribution_by_outcome
    (jsonLoads : String → Except Unit PyVal)
    (arts : List ArticleAnalysisR) (t e : String)
    (h2 : 2 ≤ arts.length)
    (hb : (buildComparativePrompt arts).isOk = true) :
    (jsonExtract t = none →
      dGet (generateComparativeAnalysis (fun _ => Except.ok t) jsonLoads arts).1
        "Sentiment Distribution" = some (PyVal.dict (sentimentDistribution arts))) ∧
    (∀ js fs, jsonExtract t = some js → jsonLoads js = Except.ok (PyVal.dict fs) →
      dGet (generateComparativeAnalysis (fun _ => Except.ok t) jsonLoads arts).1
        "Sentiment Distribution" = some (PyVal.dict (sentimentDistribution arts))) ∧
    dGet (generateComparativeAnalysis (fun _ => Except.error e) jsonLoads arts).1
      "Sentiment Distribution" = some (PyVal.dict []) := by
  cases hbp : buildComparativePrompt arts with
  | error u =>
    rw [hbp] at hb
    exact Bool.noConfusion hb
  | ok p =>
    refine ⟨?_, ?_, ?_⟩
    · intro hx
      simp only [generateComparativeAnalysis, hbp, hx]
      rfl
    · intro js fs hx hl
      simp only [generateComparativeAnalysis, hbp, hx, hl]
      rfl
    · simp only [generateComparativeAnalysis, hbp]
      rfl

/-- Witness for C1 at two concrete articles and a brace-free LLM
response. -/
theorem comparative_distribution_by_outcome_witness :
    dGet (generateComparativeAnalysis (fun _ => Except.ok "no braces")
        (fun _ => Except.error ()) cexArts).1 "Sentiment Distribution"
      = some (PyVal.dict (sentimentDistribution cexArts)) :=
  (comparative_distribution_by_outcome (fun _ => Except.error ()) cexArts "no braces"
    "boom" (by decide) (by decide)).1 (by decide)

/-- Counterexample for C1 as stated: when the narrative LLM request
raises, the comparative analysis carries an empty distribution even
though the locally computed distribution over the two input articles is
nonempty — the distribution is lost in the exception outcome. -/
theorem comparative_distribution_lost_on_exception :
    dGet (generateComparativeAnalysis (fun _ => Except.error "boom")
        (fun _ => Except.error ()) cexArts).1 "Sentiment Distribution"
      = some (PyVal.dict []) ∧
    sentimentDistribution cexArts
      = [("Positive", PyVal.int 1), ("Negative", PyVal.int 1), ("Neutral", PyVal.int 0)] ∧
    PyVal.dict [] ≠ PyVal.dict (sentimentDistribution cexArts) := by
  refine ⟨rfl, rfl, ?_⟩
  intro h
  injection h with h2
  rw [show sentimentDistribution cexArts
    = [("Positive", PyVal.int 1), ("Negative", PyVal.int 1), ("Neutral", PyVal.int 0)]
    from rfl] at h2
  exact List.noConfusion h2

/-- Witness for C7 at the two concrete Positive/Negative analyses. -/
theorem distribution_total_amended_witness :
    distributionTotal cexArts
      = ((cexArts.countP (fun a => isCoreLabel a.sentiment) : Nat) : Int) ∧
    distributionTotal cexArts ≤ (cexArts.length : Int) :=
  distribution_total_amended cexArts

/-- Witness for C8 at the concrete Tesla store and records. -/
theorem save_trace_in_place_witness :
    (∃ s ∈ statesAfter cexFs (savePickleTrace "Tesla" cexNewRecord),
        s (getPicklePath "Tesla") = FileContent.partialData) ∧
    ((savePickleTrace "Tesla" cexNewRecord).foldl applyEvent cexFs) (getPicklePath "Tesla")
      = FileContent.complete cexNewRecord ∧
    (∀ src dst, FsEvent.rename src dst ∉ savePickleTrace "Tesla" cexNewRecord) :=
  save_trace_in_place "Tesla" cexNewRecord cexFs
